import Mathlib

/-!
Shallow embedding of the East Link Connect backend (src/main.py, src/schemas.py):
authentication core (password hashing, token issue/verify, identity resolution),
user endpoints (register, login, me, follow), and the entity handlers the claims
touch (products, reviews, stories feed).

Machine conventions: times are unix seconds as `Nat`; MongoDB documents are
association lists of field names to `Val`; handler outcomes are `HResult`
(successful value, HTTPException, or an uncaught exception that FastAPI
surfaces as a 500 response).
-/

namespace EastLink

/-- Values appearing in serialized documents. -/
inductive Val where
  | vs (s : String)
  | vn (n : Nat)
  | varr (l : List String)
  | vnull
deriving DecidableEq, Repr

/-- A BSON/JSON document, as an association list of field names to values. -/
abbrev Doc := List (String × Val)

/-- Field names of a document. -/
def docKeys (d : Doc) : List String := d.map Prod.fst

/-- serialize_doc (main.py:49): replace the store-native `_id` field by a string `id`
field (inserted where Python's dict mutation leaves it); other fields untouched. -/
def serialize_doc (d : Doc) : Doc :=
  match d.lookup "_id" with
  | some v => d.filter (fun kv => kv.1 ≠ "_id") ++ [("id", v)]
  | none => d

/-- Outcome of a handler: a successful value, an HTTPException(status, detail), or an
exception no handler catches (FastAPI surfaces it as a 500 Internal Server Error). -/
inductive HResult (α : Type) where
  | ok (value : α)
  | httpError (status : Nat) (detail : String)
  | unhandledError
deriving DecidableEq, Repr

/-- HTTP status code of the response a handler outcome produces. -/
def responseStatus {α : Type} : HResult α → Nat
  | .ok _ => 200
  | .httpError s _ => s
  | .unhandledError => 500

/-! ### Password hasher (main.py:79-87, modelling the bcrypt library contract)

bcrypt internals are third-party library code; they are modelled by their documented
contract: `hashpw` emits a self-describing modular-crypt string `$2b$12$<salt>$<digest>`
embedding the salt drawn by `gensalt()` (passed explicitly as a `Nat` draw), `checkpw`
re-derives the digest from the embedded salt and compares, raising on a hash it cannot
parse. The digest is a deterministic function of password and salt. -/

/-- Split a character list on the `$` separator, keeping empty fields. -/
def splitOnDollar : List Char → List (List Char)
  | [] => [[]]
  | c :: cs =>
    if c = '$' then [] :: splitOnDollar cs
    else
      match splitOnDollar cs with
      | [] => [[c]]
      | f :: r => (c :: f) :: r

/-- Salt field encoding for the salt draw `n`: distinct draws give distinct fields. -/
def bcryptSaltChars (n : Nat) : List Char := List.replicate n 'x'

/-- Modelled bcrypt digest: deterministic in password and salt, rendered over an
alphabet that never contains the field separator. -/
def bcryptDigest (p : List Char) (salt : Nat) : List Char :=
  List.replicate ((p.foldl (fun a c => a * 131 + c.toNat) salt) % 89 + 1) 'd'

/-- bcrypt.hashpw(password, gensalt()) modelled: algorithm tag, cost, salt field for the
draw `salt`, digest of password and salt. -/
def bcryptHashpw (salt : Nat) (password : String) : String :=
  String.mk ('$' :: '2' :: 'b' :: '$' :: '1' :: '2' :: '$' ::
    (bcryptSaltChars salt ++ '$' :: bcryptDigest password.data salt))

/-- Parse a modelled bcrypt hash back into its salt draw and digest field; `none` models
the exception bcrypt raises on a malformed hash string. -/
def bcryptParse (h : String) : Option (Nat × List Char) :=
  match splitOnDollar h.data with
  | [[], ['2', 'b'], ['1', '2'], saltF, digF] =>
    if saltF.all (fun c => c == 'x') then some (saltF.length, digF) else none
  | _ => none

/-- bcrypt.checkpw modelled: parse the hash, recompute the digest under the embedded
salt, compare; `none` models the exception raised on a malformed hash. -/
def bcryptCheckpw (password : String) (hashed : String) : Option Bool :=
  match bcryptParse hashed with
  | none => none
  | some (salt, dig) => some (bcryptDigest password.data salt == dig)

/-- hash_password (main.py:79); the salt draw made by gensalt() is passed explicitly. -/
def hash_password (salt : Nat) (password : String) : String :=
  bcryptHashpw salt password

/-- verify_password (main.py:83): any exception from checkpw is caught and turned into
False. -/
def verify_password (password : String) (hashed : String) : Bool :=
  (bcryptCheckpw password hashed).getD false

/-! ### Token issuer/verifier (main.py:25-27, 90-94, modelling the PyJWT contract) -/

/-- JWT_SECRET (main.py:25): process-wide secret with the fallback default used when the
environment variable is unset. -/
def JWT_SECRET : String := "dev-secret"

/-- ACCESS_TOKEN_EXPIRE_MINUTES (main.py:27). -/
def ACCESS_TOKEN_EXPIRE_MINUTES : Nat := 60 * 24 * 7

/-- Claims carried by a token: the optional `sub` claim and the absolute `exp`
timestamp in unix seconds. -/
structure JwtPayload where
  sub : Option String
  exp : Nat
deriving DecidableEq, Repr

/-- A bearer token as jwt.encode produces it: payload, the key it was signed with, and
whether the token string is structurally well-formed (false models a garbled string
that decoding rejects). -/
structure Jwt where
  payload : JwtPayload
  signedWith : String
  wellFormed : Bool
deriving DecidableEq, Repr

/-- jwt.decode(token, key, algorithms) modelled: succeeds iff the token is well-formed,
signed with `key`, and unexpired (now < exp); `none` models the raised decode error
(malformed token, bad signature, expired signature, invalid claim). -/
def jwtDecode (t : Jwt) (key : String) (now : Nat) : Option JwtPayload :=
  if t.wellFormed = true ∧ t.signedWith = key ∧ now < t.payload.exp then some t.payload
  else none

/-- create_access_token (main.py:90): copy the claims, set exp := now + (expires_delta
or ACCESS_TOKEN_EXPIRE_MINUTES minutes), sign with JWT_SECRET. `expiresDelta` is in
seconds, as the timedelta is. -/
def create_access_token (sub : Option String) (expiresDelta : Option Nat) (now : Nat) :
    Jwt :=
  { payload := { sub := sub, exp := now + expiresDelta.getD (ACCESS_TOKEN_EXPIRE_MINUTES * 60) },
    signedWith := JWT_SECRET,
    wellFormed := true }

/-! ### ObjectId strings (modelling the bson library contract) -/

/-- Hexadecimal digit test, as the ObjectId validator accepts. -/
def isHexChar (c : Char) : Bool :=
  decide (('0' ≤ c ∧ c ≤ '9') ∨ ('a' ≤ c ∧ c ≤ 'f') ∨ ('A' ≤ c ∧ c ≤ 'F'))

/-- ObjectId(s) followed by str(...): a 24-character hex string parses and is rendered
canonically in lowercase; `none` models the InvalidId exception on anything else. -/
def objectIdParse (s : String) : Option String :=
  if s.data.length = 24 ∧ s.data.all isHexChar then
    some (String.mk (s.data.map Char.toLower))
  else none

/-! ### Credential store and identity resolution (main.py:97-170) -/

/-- A stored user record (schemas.py:59); `id` is the canonical string form of the
store-assigned ObjectId, `updated_at` appears only once a follow update has run. -/
structure StoredUser where
  id : String
  name : String
  email : String
  hashed_password : String
  avatar : Option String
  follows : List String
  role : String
  updated_at : Option Nat
deriving DecidableEq, Repr

/-- The stored user document including its `_id`, in model_dump field order. -/
def userDoc (u : StoredUser) : Doc :=
  [("_id", Val.vs u.id), ("name", Val.vs u.name), ("email", Val.vs u.email),
   ("hashed_password", Val.vs u.hashed_password),
   ("avatar", match u.avatar with | some a => Val.vs a | none => Val.vnull),
   ("follows", Val.varr u.follows), ("role", Val.vs u.role)] ++
  (match u.updated_at with | some t => [("updated_at", Val.vn t)] | none => [])

/-- serialize_doc followed by popping the hash: the pattern every user-returning
endpoint applies (main.py:116-118, 135-136, 146-147, 168-169). -/
def publicUserDoc (u : StoredUser) : Doc :=
  (serialize_doc (userDoc u)).filter (fun kv => kv.1 ≠ "hashed_password")

/-- get_user_by_email (main.py:97): db.user.find_one({"email": email}). -/
def get_user_by_email (store : List StoredUser) (email : String) : Option StoredUser :=
  store.find? (fun u => u.email == email)

/-- get_current_user (main.py:104). The try/except converts every decode failure and a
missing sub claim into HTTPException(401, "Could not validate credentials"); the
ObjectId(user_id) call on line 113 sits outside the try, so an InvalidId raised there
propagates uncaught. -/
def get_current_user (store : List StoredUser) (now : Nat) (token : Jwt) : HResult Doc :=
  match jwtDecode token JWT_SECRET now with
  | none => .httpError 401 "Could not validate credentials"
  | some payload =>
    match payload.sub with
    | none => .httpError 401 "Could not validate credentials"
    | some userId =>
      match objectIdParse userId with
      | none => .unhandledError
      | some oid =>
        match store.find? (fun u => u.id == oid) with
        | none => .httpError 401 "Could not validate credentials"
        | some u => .ok (publicUserDoc u)

/-- OAuth2PasswordBearer extraction composed with get_current_user: FastAPI rejects a
missing or non-Bearer Authorization header with 401 "Not authenticated" before the
dependency body runs. `auth` is the parsed Authorization header (scheme, credential). -/
def resolveIdentity (auth : Option (String × Jwt)) (store : List StoredUser) (now : Nat) :
    HResult Doc :=
  match auth with
  | none => .httpError 401 "Not authenticated"
  | some (scheme, token) =>
    if String.mk (scheme.data.map Char.toLower) = "bearer" then
      get_current_user store now token
    else .httpError 401 "Not authenticated"

/-- GET /auth/me (main.py:151): returns the resolved current user unchanged. -/
def me (auth : Option (String × Jwt)) (store : List StoredUser) (now : Nat) :
    HResult Doc :=
  resolveIdentity auth store now

/-! ### Registration, login, follow update (main.py:122-170) -/

/-- Request body of POST /auth/register (main.py:61). -/
structure UserCreate where
  name : String
  email : String
  password : String
  avatar : Option String
deriving Repr

/-- POST /auth/register (main.py:122): reject a taken email with 400 before inserting;
otherwise insert the new user document, issue a token for the new id, and answer with
the serialized user minus the hash. `freshId` is the store-assigned id in canonical
form, `salt` the gensalt() draw. Returns the response and the resulting user store. -/
def register (store : List StoredUser) (freshId : String) (salt : Nat) (now : Nat)
    (inp : UserCreate) : HResult (Jwt × Doc) × List StoredUser :=
  match get_user_by_email store inp.email with
  | some _ => (.httpError 400 "Email already registered", store)
  | none =>
    let newUser : StoredUser :=
      { id := freshId, name := inp.name, email := inp.email,
        hashed_password := hash_password salt inp.password,
        avatar := inp.avatar, follows := [], role := "user", updated_at := none }
    (.ok (create_access_token (some freshId) none now, publicUserDoc newUser),
      store ++ [newUser])

/-- Request body of POST /auth/login (main.py:68). -/
structure LoginRequest where
  email : String
  password : String
deriving Repr

/-- POST /auth/login (main.py:140): uniform 400 on unknown email or wrong password;
otherwise a fresh token plus the serialized user minus the hash. -/
def login (store : List StoredUser) (now : Nat) (p : LoginRequest) :
    HResult (Jwt × Doc) :=
  match get_user_by_email store p.email with
  | none => .httpError 400 "Incorrect email or password"
  | some u =>
    if verify_password p.password u.hashed_password then
      .ok (create_access_token (some u.id) none now, publicUserDoc u)
    else .httpError 400 "Incorrect email or password"

/-- The update_one $set of main.py:166: replace follows and stamp updated_at on every
record matching the caller's id, leaving every other record untouched. -/
def followStateUpdate (store : List StoredUser) (uid : String) (towns : List String)
    (now : Nat) : List StoredUser :=
  store.map (fun u =>
    if u.id == uid then { u with follows := towns, updated_at := some now } else u)

/-- PATCH /auth/follow (main.py:160): resolve the caller, $set follows := towns and
updated_at := now on the caller's record, re-fetch and return it serialized minus the
hash. A falsy id in the resolved document gives 400; a failed re-fetch would hit
None.pop and propagate uncaught. -/
def update_follows (auth : Option (String × Jwt)) (store : List StoredUser) (now : Nat)
    (towns : List String) : HResult Doc × List StoredUser :=
  match resolveIdentity auth store now with
  | .httpError s d => (.httpError s d, store)
  | .unhandledError => (.unhandledError, store)
  | .ok callerDoc =>
    match callerDoc.lookup "id" with
    | some (Val.vs uid) =>
      if uid = "" then (.httpError 400 "Invalid user", store)
      else
        match (followStateUpdate store uid towns now).find? (fun u => u.id == uid) with
        | none => (.unhandledError, followStateUpdate store uid towns now)
        | some u => (.ok (publicUserDoc u), followStateUpdate store uid towns now)
    | _ => (.httpError 400 "Invalid user", store)

/-! ### Products (main.py:218-243) -/

/-- Request body of POST /api/products (main.py:218), after Pydantic typing. Prices are
modelled as integers; only their sign matters to the embedded validation. -/
structure ProductIn where
  business_id : Option String
  title : String
  description : Option String
  price : Option Int
  currency : String
  category : Option String
  images : List String
  available : Bool
deriving DecidableEq, Repr

/-- Pydantic validation for Product (schemas.py:26): price, when present, must satisfy
ge=0; the remaining constraints (required title, field types) are enforced by the
typed embedding itself. -/
def productValid (p : ProductIn) : Bool :=
  match p.price with
  | some pr => decide (0 ≤ pr)
  | none => true

/-- Application state seen by the product handler: the business collection and the
product collection (assigned id paired with the stored record). -/
structure AppState where
  businesses : List Doc
  products : List (String × ProductIn)
deriving Repr

/-- The business_id normalization step of main.py:234-238: when business_id is present
and truthy, replace it by its canonical ObjectId rendering if it parses; on a parse
failure the exception is swallowed and the value kept unchanged. -/
def normalizeBusinessId (p : ProductIn) : ProductIn :=
  match p.business_id with
  | some s =>
    if s ≠ "" then
      match objectIdParse s with
      | some canon => { p with business_id := some canon }
      | none => p
    else p
  | none => p

/-- POST /api/products (main.py:229): normalize business_id, validate, insert. The
business collection is never consulted.
Modelled from the spec: create_document (database.py, absent from src/) validates the
record, inserts it, and returns the newly assigned identifier (spec 4.4). -/
def create_product (st : AppState) (freshId : String) (p : ProductIn) :
    HResult String × AppState :=
  if productValid (normalizeBusinessId p) then
    (.ok freshId, { st with products := st.products ++ [(freshId, normalizeBusinessId p)] })
  else (.httpError 400 "validation error", st)

/-! ### Reviews (main.py:298-318) -/

/-- Request body of POST /api/reviews (main.py:298); rating is a Python int. -/
structure ReviewIn where
  target_type : String
  target_id : String
  author_name : Option String
  rating : Int
  comment : Option String
deriving DecidableEq, Repr

/-- The closed set of review target types (main.py:310). -/
def validTargetTypes : List String := ["business", "product", "attraction"]

/-- Pydantic validation for Review (schemas.py:45): rating must satisfy ge=1, le=5. -/
def reviewValid (r : ReviewIn) : Bool :=
  decide (1 ≤ r.rating ∧ r.rating ≤ 5)

/-- POST /api/reviews (main.py:306): reject a target_type outside the closed set with
400 before constructing or persisting anything; a Pydantic validation error is caught
and becomes 400; otherwise insert and return the new id.
Modelled from the spec: create_document (database.py, absent from src/) validates the
record, inserts it, and returns the newly assigned identifier (spec 4.4). -/
def create_review (reviews : List (String × ReviewIn)) (freshId : String) (p : ReviewIn) :
    HResult String × List (String × ReviewIn) :=
  if p.target_type ∉ validTargetTypes then
    (.httpError 400 "Invalid target_type", reviews)
  else if reviewValid p then (.ok freshId, reviews ++ [(freshId, p)])
  else (.httpError 400 "validation error", reviews)

/-! ### Stories feed (main.py:369-379) -/

/-- A stored Update record (schemas.py:52) with its assigned id and creation time. -/
structure UpdateDoc where
  id : String
  title : String
  content : String
  category : Option String
  town : Option String
  images : List String
  created_at : Nat
deriving DecidableEq, Repr

/-- Python str.strip(): drop whitespace from both ends. -/
def stripChars (l : List Char) : List Char :=
  ((l.dropWhile Char.isWhitespace).reverse.dropWhile Char.isWhitespace).reverse

/-- Python towns.split(","): split on commas, keeping empty fields. -/
def splitOnComma : List Char → List (List Char)
  | [] => [[]]
  | c :: cs =>
    if c = ',' then [] :: splitOnComma cs
    else
      match splitOnComma cs with
      | [] => [[c]]
      | f :: r => (c :: f) :: r

/-- towns_list (main.py:375): [t.strip() for t in towns.split(",") if t.strip()]. -/
def parseTowns (towns : String) : List String :=
  ((splitOnComma towns.data).map (fun f => String.mk (stripChars f))).filter
    (fun t => t ≠ "")

/-- The $in town filter stories builds: the record's town field must be a member of the
towns list (a record with no town matches nothing). -/
def townMatches (townsList : List String) (d : UpdateDoc) : Bool :=
  match d.town with
  | some t => townsList.contains t
  | none => false

/-- pymongo cursor.limit: a limit of 0 is equivalent to setting no limit. -/
def mongoLimit {α : Type} (limit : Nat) (l : List α) : List α :=
  if limit = 0 then l else l.take limit

/-- Descending creation-time order used by .sort("created_at", -1). -/
def newerFirst (a b : UpdateDoc) : Prop := b.created_at ≤ a.created_at

instance : DecidableRel newerFirst := fun a b =>
  inferInstanceAs (Decidable (b.created_at ≤ a.created_at))

instance : IsTotal UpdateDoc newerFirst :=
  ⟨fun a b => le_total b.created_at a.created_at⟩

instance : IsTrans UpdateDoc newerFirst :=
  ⟨fun _ _ _ h1 h2 => le_trans h2 h1⟩

/-- The filter stage of GET /stories (main.py:373-377): the $in town filter is applied
only when the towns parameter is present, non-empty, and parses to a non-empty list. -/
def storiesFilter (updates : List UpdateDoc) (towns : Option String) : List UpdateDoc :=
  match towns with
  | some s =>
    if s ≠ "" then
      if parseTowns s ≠ [] then updates.filter (townMatches (parseTowns s)) else updates
    else updates
  | none => updates

/-- GET /stories (main.py:369): optional $in filter by parsed towns, sort by created_at
descending, then apply the result-count limit. The store's sort is modelled by
insertion sort under the descending order. -/
def stories (updates : List UpdateDoc) (towns : Option String) (limit : Nat) :
    List UpdateDoc :=
  mongoLimit limit ((storiesFilter updates towns).insertionSort newerFirst)

/-! ### Concrete data used by witnesses -/

/-- A stored user for concrete instantiations. -/
def demoUser : StoredUser :=
  { id := "0123456789abcdef01234567", name := "Ama", email := "ama@example.com",
    hashed_password := hash_password 3 "pw123", avatar := none,
    follows := ["Koforidua"], role := "user", updated_at := none }

/-- A valid token for demoUser: signed with the process secret, unexpired at time 0. -/
def demoToken : Jwt :=
  { payload := { sub := some "0123456789abcdef01234567", exp := 1000 },
    signedWith := "dev-secret", wellFormed := true }

/-- A validly signed, unexpired token whose subject is not a parseable ObjectId. -/
def badSubToken : Jwt :=
  { payload := { sub := some "not-an-objectid", exp := 1000 },
    signedWith := "dev-secret", wellFormed := true }

/-- A validly signed, unexpired token carrying no sub claim. -/
def noSubToken : Jwt :=
  { payload := { sub := none, exp := 1000 },
    signedWith := "dev-secret", wellFormed := true }

/-- The user record that registering demoRegInput on an empty store creates. -/
def demoRegUser : StoredUser :=
  { id := "aaaabbbbccccddddeeeeffff", name := "Kofi", email := "kofi@example.com",
    hashed_password := hash_password 7 "secret9", avatar := none,
    follows := [], role := "user", updated_at := none }

/-- Registration input matching demoRegUser. -/
def demoRegInput : UserCreate :=
  { name := "Kofi", email := "kofi@example.com", password := "secret9", avatar := none }

/-- A review aimed at an unsupported target type. -/
def eventReview : ReviewIn :=
  { target_type := "event", target_id := "t1", author_name := none, rating := 5,
    comment := none }

/-- A business review with the given rating. -/
def businessReview (rating : Int) : ReviewIn :=
  { target_type := "business", target_id := "t1", author_name := none,
    rating := rating, comment := none }

/-- A product creation request whose business_id is an uppercase ObjectId rendering. -/
def hexIdProduct : ProductIn :=
  { business_id := some "0123456789ABCDEF01234567", title := "Basket", description := none,
    price := some 2, currency := "GHS", category := none, images := [], available := true }

/-- A product creation request whose business_id is not a parseable ObjectId. -/
def freeIdProduct : ProductIn :=
  { business_id := some "shop-1", title := "Basket", description := none,
    price := some 2, currency := "GHS", category := none, images := [], available := true }

/-- An Update record in Koforidua, for the stories feed. -/
def demoUpdate : UpdateDoc :=
  { id := "u1", title := "Market day", content := "body", category := none,
    town := some "Koforidua", images := [], created_at := 10 }

/-- An older Update record in Mampong. -/
def demoUpdate2 : UpdateDoc :=
  { id := "u2", title := "Festival", content := "body", category := none,
    town := some "Mampong", images := [], created_at := 4 }

/-! ### Helper lemmas -/

/-- Splitting a list that starts with the separator yields a leading empty field. -/
theorem splitOnDollar_sep (cs : List Char) :
    splitOnDollar ('$' :: cs) = [] :: splitOnDollar cs := by
  simp [splitOnDollar]

/-- Splitting a separator-free field followed by a separator peels off that field. -/
theorem splitOnDollar_append (l rest : List Char) (h : ('$' : Char) ∉ l) :
    splitOnDollar (l ++ '$' :: rest) = l :: splitOnDollar rest := by
  induction l with
  | nil => simp [splitOnDollar]
  | cons c cs ih =>
    have hc : c ≠ '$' := fun he => h (he ▸ List.mem_cons_self c cs)
    have hcs : ('$' : Char) ∉ cs := fun hm => h (List.mem_cons_of_mem _ hm)
    rw [List.cons_append]
    simp only [splitOnDollar, if_neg hc, ih hcs]

/-- Splitting a separator-free list yields that single field. -/
theorem splitOnDollar_no_sep (l : List Char) (h : ('$' : Char) ∉ l) :
    splitOnDollar l = [l] := by
  induction l with
  | nil => rfl
  | cons c cs ih =>
    have hc : c ≠ '$' := fun he => h (he ▸ List.mem_cons_self c cs)
    have hcs : ('$' : Char) ∉ cs := fun hm => h (List.mem_cons_of_mem _ hm)
    simp only [splitOnDollar, if_neg hc, ih hcs]

/-- The salt field never contains the separator. -/
theorem dollar_not_mem_salt (n : Nat) : ('$' : Char) ∉ bcryptSaltChars n := by
  intro h
  rw [bcryptSaltChars, List.mem_replicate] at h
  exact absurd h.2 (by decide)

/-- The digest field never contains the separator. -/
theorem dollar_not_mem_digest (p : List Char) (salt : Nat) :
    ('$' : Char) ∉ bcryptDigest p salt := by
  intro h
  rw [bcryptDigest, List.mem_replicate] at h
  exact absurd h.2 (by decide)

/-- Parsing a produced hash recovers exactly the salt draw and the digest. -/
theorem bcryptParse_hashpw (salt : Nat) (p : String) :
    bcryptParse (bcryptHashpw salt p) = some (salt, bcryptDigest p.data salt) := by
  have hsplit : splitOnDollar (bcryptHashpw salt p).data
      = [[], ['2', 'b'], ['1', '2'], bcryptSaltChars salt, bcryptDigest p.data salt] := by
    show splitOnDollar
        ('$' :: (['2', 'b'] ++ '$' :: (['1', '2'] ++ '$' ::
          (bcryptSaltChars salt ++ '$' :: bcryptDigest p.data salt)))) = _
    rw [splitOnDollar_sep,
      splitOnDollar_append _ _ (by decide),
      splitOnDollar_append _ _ (by decide),
      splitOnDollar_append _ _ (dollar_not_mem_salt salt),
      splitOnDollar_no_sep _ (dollar_not_mem_digest p.data salt)]
  have hall : (bcryptSaltChars salt).all (fun c => c == 'x') = true := by
    rw [List.all_eq_true]
    intro c hc
    rw [bcryptSaltChars, List.mem_replicate] at hc
    simp [hc.2]
  have hlen : (bcryptSaltChars salt).length = salt := by
    simp [bcryptSaltChars]
  rw [bcryptParse, hsplit]
  simp only [hall, if_true, hlen]

/-! ### Claim theorems -/

/-- C7: for every plaintext, verifying against its own hash succeeds; hashing with two
distinct salt draws gives two different hash strings that both verify; and on any
hash string that fails to parse, verify_password returns false instead of raising. -/
theorem verify_password_of_hash_and_salting (p : String) (s1 s2 : Nat) (bad : String)
    (hne : s1 ≠ s2) (hbad : bcryptParse bad = none) :
    verify_password p (hash_password s1 p) = true ∧
    verify_password p (hash_password s2 p) = true ∧
    hash_password s1 p ≠ hash_password s2 p ∧
    verify_password p bad = false := by
  have hv : ∀ s : Nat, verify_password p (hash_password s p) = true := by
    intro s
    rw [verify_password, bcryptCheckpw, hash_password, bcryptParse_hashpw]
    simp
  refine ⟨hv s1, hv s2, ?_, ?_⟩
  · intro h
    have := congrArg bcryptParse h
    rw [hash_password, hash_password, bcryptParse_hashpw, bcryptParse_hashpw] at this
    exact hne (congrArg Prod.fst (Option.some.inj this))
  · rw [verify_password, bcryptCheckpw, hbad]
    rfl

/-- C7 witness: the theorem applied at plaintext "pw123", salt draws 3 and 4, and the
malformed hash string "nothash". -/
theorem verify_password_of_hash_and_salting_witness :
    (3 ≠ 4 ∧ bcryptParse "nothash" = none) ∧
    (verify_password "pw123" (hash_password 3 "pw123") = true ∧
     verify_password "pw123" (hash_password 4 "pw123") = true ∧
     hash_password 3 "pw123" ≠ hash_password 4 "pw123" ∧
     verify_password "pw123" "nothash" = false) :=
  ⟨⟨by decide, by decide⟩,
    verify_password_of_hash_and_salting "pw123" 3 4 "nothash" (by decide) (by decide)⟩

/-- C2: a token issued for subject S at t0 with the default expiry carries the absolute
expiry t0 + 7 days exactly; decoding succeeds at t0 + 6 days and yields S, and fails
at t0 + 8 days. -/
theorem token_seven_day_expiry (S : String) (t0 : Nat) :
    (create_access_token (some S) none t0).payload.exp = t0 + 7 * 86400 ∧
    jwtDecode (create_access_token (some S) none t0) JWT_SECRET (t0 + 6 * 86400)
      = some { sub := some S, exp := t0 + 7 * 86400 } ∧
    jwtDecode (create_access_token (some S) none t0) JWT_SECRET (t0 + 8 * 86400)
      = none := by
  refine ⟨by simp [create_access_token, ACCESS_TOKEN_EXPIRE_MINUTES], ?_, ?_⟩
  · rw [jwtDecode, if_pos]
    · simp [create_access_token, ACCESS_TOKEN_EXPIRE_MINUTES]
    · refine ⟨rfl, rfl, ?_⟩
      show t0 + 6 * 86400 < t0 + ACCESS_TOKEN_EXPIRE_MINUTES * 60
      rw [ACCESS_TOKEN_EXPIRE_MINUTES]
      omega
  · rw [jwtDecode, if_neg]
    intro h
    have := h.2.2
    rw [show (create_access_token (some S) none t0).payload.exp
        = t0 + ACCESS_TOKEN_EXPIRE_MINUTES * 60 from rfl, ACCESS_TOKEN_EXPIRE_MINUTES] at this
    omega

/-- C1 counterexample: a validly signed, unexpired token whose subject is not a
parseable ObjectId makes get_current_user raise an uncaught error (HTTP 500), and a
request with no Authorization header is rejected with detail "Not authenticated";
neither failure produces the uniform 401 "Could not validate credentials". -/
theorem identity_resolver_not_uniform_cex :
    get_current_user [demoUser] 0 badSubToken = HResult.unhandledError ∧
    responseStatus (get_current_user [demoUser] 0 badSubToken) = 500 ∧
    get_current_user [demoUser] 0 badSubToken
      ≠ HResult.httpError 401 "Could not validate credentials" ∧
    resolveIdentity none [demoUser] 0 = HResult.httpError 401 "Not authenticated" ∧
    resolveIdentity none [demoUser] 0
      ≠ HResult.httpError 401 "Could not validate credentials" := by
  refine ⟨by decide, by decide, by decide, by decide, by decide⟩

/-- C1 (amended): the failures handled inside get_current_user — an undecodable token
(malformed, bad signature, or expired), a missing subject claim, and a subject that
parses as an ObjectId but matches no stored user — are all rejected with the same
401 "Could not validate credentials". A missing Authorization header is instead
rejected as 401 "Not authenticated" before the resolver runs, and a decoded subject
that fails to parse as an ObjectId escapes as an uncaught error (HTTP 500). -/
theorem identity_resolver_uniform_401 (store : List StoredUser) (now : Nat) (t : Jwt) :
    (jwtDecode t JWT_SECRET now = none →
      get_current_user store now t = HResult.httpError 401 "Could not validate credentials") ∧
    (∀ pl, jwtDecode t JWT_SECRET now = some pl → pl.sub = none →
      get_current_user store now t = HResult.httpError 401 "Could not validate credentials") ∧
    (∀ pl s oid, jwtDecode t JWT_SECRET now = some pl → pl.sub = some s →
      objectIdParse s = some oid → store.find? (fun u => u.id == oid) = none →
      get_current_user store now t = HResult.httpError 401 "Could not validate credentials") ∧
    (∀ pl s, jwtDecode t JWT_SECRET now = some pl → pl.sub = some s →
      objectIdParse s = none →
      get_current_user store now t = HResult.unhandledError) ∧
    (resolveIdentity none store now = HResult.httpError 401 "Not authenticated") := by
  refine ⟨?_, ?_, ?_, ?_, rfl⟩
  · intro h
    rw [get_current_user, h]
  · intro pl hdec hsub
    simp only [get_current_user, hdec, hsub]
  · intro pl s oid hdec hsub hpar hfind
    simp only [get_current_user, hdec, hsub, hpar, hfind]
  · intro pl s hdec hsub hpar
    simp only [get_current_user, hdec, hsub, hpar]

/-- C1 witness: the amended theorem instantiated — an expired token, a well-signed token
with no sub claim, a well-signed token whose ObjectId subject matches no user, the
unparseable-subject token, and the missing header. -/
theorem identity_resolver_uniform_401_witness :
    (get_current_user [demoUser] 2000 demoToken
      = HResult.httpError 401 "Could not validate credentials") ∧
    (get_current_user [demoUser] 0 noSubToken
      = HResult.httpError 401 "Could not validate credentials") ∧
    (get_current_user [] 0 demoToken
      = HResult.httpError 401 "Could not validate credentials") ∧
    (get_current_user [demoUser] 0 badSubToken = HResult.unhandledError) ∧
    (resolveIdentity none [demoUser] 0 = HResult.httpError 401 "Not authenticated") := by
  refine ⟨(identity_resolver_uniform_401 [demoUser] 2000 demoToken).1 (by decide),
    (identity_resolver_uniform_401 [demoUser] 0 noSubToken).2.1 noSubToken.payload
      (by decide) rfl,
    (identity_resolver_uniform_401 [] 0 demoToken).2.2.1 demoToken.payload
      "0123456789abcdef01234567" "0123456789abcdef01234567"
      (by decide) rfl (by decide) rfl,
    (identity_resolver_uniform_401 [demoUser] 0 badSubToken).2.2.2.1
      badSubToken.payload "not-an-objectid" (by decide) rfl (by decide),
    (identity_resolver_uniform_401 [demoUser] 0 demoToken).2.2.2.2⟩

/-- A serialized-then-popped user document never carries the hash field. -/
theorem hash_not_in_publicUserDoc (u : StoredUser) :
    "hashed_password" ∉ docKeys (publicUserDoc u) := by
  intro h
  rw [docKeys, List.mem_map] at h
  obtain ⟨kv, hkv, hfst⟩ := h
  rw [publicUserDoc, List.mem_filter] at hkv
  exact absurd hfst (by simpa using hkv.2)

/-- C3: every response that carries a User object — from register, login, /auth/me and
the follow update — excludes the stored hashed_password field. -/
theorem user_responses_exclude_hash (store : List StoredUser) (freshId : String)
    (salt now : Nat) :
    (∀ inp tok d, (register store freshId salt now inp).1 = HResult.ok (tok, d) →
      "hashed_password" ∉ docKeys d) ∧
    (∀ lp tok d, login store now lp = HResult.ok (tok, d) →
      "hashed_password" ∉ docKeys d) ∧
    (∀ auth d, me auth store now = HResult.ok d →
      "hashed_password" ∉ docKeys d) ∧
    (∀ auth towns d, (update_follows auth store now towns).1 = HResult.ok d →
      "hashed_password" ∉ docKeys d) := by
  have hgcu : ∀ st nw t d, get_current_user st nw t = HResult.ok d →
      "hashed_password" ∉ docKeys d := by
    intro st nw t d h
    unfold get_current_user at h
    split at h
    · exact absurd h (by simp)
    · split at h
      · exact absurd h (by simp)
      · split at h
        · exact absurd h (by simp)
        · split at h
          · exact absurd h (by simp)
          · rw [← HResult.ok.inj h]
            exact hash_not_in_publicUserDoc _
  have hres : ∀ auth d, resolveIdentity auth store now = HResult.ok d →
      "hashed_password" ∉ docKeys d := by
    intro auth d h
    unfold resolveIdentity at h
    split at h
    · exact absurd h (by simp)
    · split at h
      · exact hgcu _ _ _ _ h
      · exact absurd h (by simp)
  refine ⟨?_, ?_, ?_, ?_⟩
  · intro inp tok d h
    unfold register at h
    split at h
    · exact absurd h (by simp)
    · rw [← ((Prod.mk.injEq _ _ _ _).mp (HResult.ok.inj h)).2]
      exact hash_not_in_publicUserDoc _
  · intro lp tok d h
    unfold login at h
    split at h
    · exact absurd h (by simp)
    · split at h
      · rw [← ((Prod.mk.injEq _ _ _ _).mp (HResult.ok.inj h)).2]
        exact hash_not_in_publicUserDoc _
      · exact absurd h (by simp)
  · intro auth d h
    exact hres auth d h
  · intro auth towns d h
    unfold update_follows at h
    split at h
    · exact absurd h (by simp)
    · exact absurd h (by simp)
    · rename_i callerDoc hcaller
      split at h
      · split at h
        · exact absurd h (by simp)
        · split at h
          · exact absurd h (by simp)
          · rw [← HResult.ok.inj (show HResult.ok _ = HResult.ok d from h)]
            exact hash_not_in_publicUserDoc _
      · exact absurd h (by simp)

/-- C3 witness: concrete successful responses of all four endpoints contain no
hashed_password key. -/
theorem user_responses_exclude_hash_witness :
    "hashed_password" ∉ docKeys (publicUserDoc demoRegUser) ∧
    "hashed_password" ∉ docKeys (publicUserDoc demoUser) ∧
    "hashed_password" ∉ docKeys (publicUserDoc
      { demoUser with follows := ["Mampong"], updated_at := some 5 }) := by
  refine ⟨?_, ?_, ?_⟩
  · exact (user_responses_exclude_hash [] "aaaabbbbccccddddeeeeffff" 7 0).1
      demoRegInput (create_access_token (some "aaaabbbbccccddddeeeeffff") none 0)
      (publicUserDoc demoRegUser) (by decide)
  · exact (user_responses_exclude_hash [demoUser] "x" 0 0).2.1
      { email := "ama@example.com", password := "pw123" }
      (create_access_token (some demoUser.id) none 0)
      (publicUserDoc demoUser) (by decide)
  · exact (user_responses_exclude_hash [demoUser] "x" 0 5).2.2.2
      (some ("Bearer", demoToken)) ["Mampong"]
      (publicUserDoc { demoUser with follows := ["Mampong"], updated_at := some 5 })
      (by decide)

/-- C4: registering with an email some stored user already has fails with 400
"Email already registered" and leaves the user collection unchanged: the duplicate
check runs before any insert. -/
theorem register_duplicate_email_rejected (store : List StoredUser) (freshId : String)
    (salt now : Nat) (inp : UserCreate) (h : ∃ u ∈ store, u.email = inp.email) :
    (register store freshId salt now inp).1
      = HResult.httpError 400 "Email already registered" ∧
    (register store freshId salt now inp).2 = store := by
  obtain ⟨u, hu, he⟩ := h
  cases hm : get_user_by_email store inp.email with
  | none =>
    rw [get_user_by_email, List.find?_eq_none] at hm
    exact absurd (by simp [he]) (hm u hu)
  | some v =>
    rw [register, hm]
    exact ⟨rfl, rfl⟩

/-- C4 witness: re-registering demoUser's email on a store holding demoUser. -/
theorem register_duplicate_email_rejected_witness :
    (∃ u ∈ [demoUser], u.email = "ama@example.com") ∧
    (register [demoUser] "ffff0000ffff0000ffff0000" 9 0
      { name := "Other", email := "ama@example.com", password := "pw", avatar := none }).1
      = HResult.httpError 400 "Email already registered" ∧
    (register [demoUser] "ffff0000ffff0000ffff0000" 9 0
      { name := "Other", email := "ama@example.com", password := "pw", avatar := none }).2
      = [demoUser] :=
  ⟨⟨demoUser, by decide, by decide⟩,
    register_duplicate_email_rejected [demoUser] "ffff0000ffff0000ffff0000" 9 0
      { name := "Other", email := "ama@example.com", password := "pw", avatar := none }
      ⟨demoUser, by decide, by decide⟩⟩

/-- C9: a successful follow update replaces the caller's follows list wholesale with the
supplied towns, stamps updated_at, keeps the caller's remaining fields (name, email,
hashed_password, avatar, role) unchanged, and leaves every other user record
untouched. -/
theorem follow_update_full_replace (auth : Option (String × Jwt))
    (store : List StoredUser) (now : Nat) (towns : List String) (uid : String) (d : Doc)
    (hres : resolveIdentity auth store now = HResult.ok d)
    (hid : d.lookup "id" = some (Val.vs uid)) (hne : uid ≠ "")
    (u : StoredUser) (hu : u ∈ store) :
    (u.id = uid → ∃ u' ∈ (update_follows auth store now towns).2,
      u'.id = u.id ∧ u'.follows = towns ∧ u'.updated_at = some now ∧
      u'.name = u.name ∧ u'.email = u.email ∧
      u'.hashed_password = u.hashed_password ∧ u'.avatar = u.avatar ∧
      u'.role = u.role) ∧
    (u.id ≠ uid → u ∈ (update_follows auth store now towns).2) := by
  have h2 : (update_follows auth store now towns).2
      = followStateUpdate store uid towns now := by
    simp only [update_follows, hres, hid, if_neg hne]
    split <;> rfl
  constructor
  · intro hEq
    rw [h2, followStateUpdate]
    exact ⟨{ u with follows := towns, updated_at := some now },
      List.mem_map.mpr ⟨u, hu, by rw [if_pos (by simp [hEq])]⟩,
      rfl, rfl, rfl, rfl, rfl, rfl, rfl, rfl⟩
  · intro hNe
    rw [h2, followStateUpdate]
    exact List.mem_map.mpr ⟨u, hu, by rw [if_neg (by simp [hNe])]⟩

/-- C9 witness: demoUser follows ["Mampong"] after the update, with all other fields
unchanged. -/
theorem follow_update_full_replace_witness :
    ∃ u' ∈ (update_follows (some ("Bearer", demoToken)) [demoUser] 5 ["Mampong"]).2,
      u'.id = demoUser.id ∧ u'.follows = ["Mampong"] ∧ u'.updated_at = some 5 ∧
      u'.name = demoUser.name ∧ u'.email = demoUser.email ∧
      u'.hashed_password = demoUser.hashed_password ∧ u'.avatar = demoUser.avatar ∧
      u'.role = demoUser.role :=
  (follow_update_full_replace (some ("Bearer", demoToken)) [demoUser] 5 ["Mampong"]
    demoUser.id (publicUserDoc demoUser) (by decide) (by decide) (by decide)
    demoUser (by decide)).1 rfl

/-- C6: create_review rejects a target_type outside {business, product, attraction} with
400 "Invalid target_type" and persists nothing; a business-targeted review with
rating 5 is inserted and its new id returned; a review with rating 6 is rejected with
a 400 and persists nothing. -/
theorem review_target_type_and_rating (reviews : List (String × ReviewIn))
    (freshId : String) (p : ReviewIn) :
    (p.target_type ∉ validTargetTypes →
      create_review reviews freshId p
        = (HResult.httpError 400 "Invalid target_type", reviews)) ∧
    (p.target_type = "business" → p.rating = 5 →
      create_review reviews freshId p = (HResult.ok freshId, reviews ++ [(freshId, p)])) ∧
    (p.rating = 6 →
      responseStatus (create_review reviews freshId p).1 = 400 ∧
      (create_review reviews freshId p).2 = reviews) := by
  refine ⟨?_, ?_, ?_⟩
  · intro h
    rw [create_review, if_pos h]
  · intro h1 h5
    rw [create_review, if_neg (by simp [validTargetTypes, h1]),
      if_pos (by simp [reviewValid, h5])]
  · intro h6
    by_cases ht : p.target_type ∉ validTargetTypes
    · rw [create_review, if_pos ht]
      exact ⟨rfl, rfl⟩
    · rw [create_review, if_neg ht, if_neg (by simp [reviewValid, h6])]
      exact ⟨rfl, rfl⟩

/-- C6 witness: the theorem at target_type "event" (rejected), at a business review
with rating 5 (inserted), and at a business review with rating 6 (rejected). -/
theorem review_target_type_and_rating_witness :
    (create_review [] "r1" eventReview
      = (HResult.httpError 400 "Invalid target_type", [])) ∧
    (create_review [] "r1" (businessReview 5)
      = (HResult.ok "r1", [("r1", businessReview 5)])) ∧
    (responseStatus (create_review [] "r1" (businessReview 6)).1 = 400 ∧
      (create_review [] "r1" (businessReview 6)).2 = []) :=
  ⟨(review_target_type_and_rating [] "r1" eventReview).1 (by decide),
    (review_target_type_and_rating [] "r1" (businessReview 5)).2.1 rfl rfl,
    (review_target_type_and_rating [] "r1" (businessReview 6)).2.2 rfl⟩

/-- C10: a review with rating 0 is rejected with a 400 and persisted nowhere; for a
valid target_type, acceptance is exactly equivalent to the rating lying in the closed
interval [1, 5], so rating 1 is the smallest accepted value. -/
theorem review_rating_lower_bound (reviews : List (String × ReviewIn))
    (freshId : String) (p : ReviewIn) :
    (p.rating = 0 →
      responseStatus (create_review reviews freshId p).1 = 400 ∧
      (create_review reviews freshId p).2 = reviews) ∧
    (p.target_type ∈ validTargetTypes →
      ((create_review reviews freshId p).1 = HResult.ok freshId ↔
        1 ≤ p.rating ∧ p.rating ≤ 5)) ∧
    (p.target_type ∈ validTargetTypes → p.rating = 1 →
      create_review reviews freshId p = (HResult.ok freshId, reviews ++ [(freshId, p)])) := by
  have hval : reviewValid p = true ↔ (1 ≤ p.rating ∧ p.rating ≤ 5) := by
    simp [reviewValid]
  refine ⟨?_, ?_, ?_⟩
  · intro h0
    by_cases ht : p.target_type ∉ validTargetTypes
    · rw [create_review, if_pos ht]
      exact ⟨rfl, rfl⟩
    · rw [create_review, if_neg ht, if_neg (by simp [reviewValid, h0])]
      exact ⟨rfl, rfl⟩
  · intro ht
    rw [create_review, if_neg (not_not_intro ht)]
    by_cases hv : reviewValid p = true
    · rw [if_pos hv]
      simp [hval.mp hv]
    · rw [if_neg hv]
      exact ⟨fun hq => absurd hq (by simp), fun hq => absurd (hval.mpr hq) hv⟩
  · intro ht h1
    rw [create_review, if_neg (not_not_intro ht), if_pos (by simp [reviewValid, h1])]

/-- C10 witness: rating 0 on a business review is rejected with nothing inserted, and
rating 1 is accepted. -/
theorem review_rating_lower_bound_witness :
    (responseStatus (create_review [] "r2" (businessReview 0)).1 = 400 ∧
      (create_review [] "r2" (businessReview 0)).2 = []) ∧
    (create_review [] "r2" (businessReview 1)
      = (HResult.ok "r2", [("r2", businessReview 1)])) :=
  ⟨(review_rating_lower_bound [] "r2" (businessReview 0)).1 rfl,
    (review_rating_lower_bound [] "r2" (businessReview 1)).2.2 (by decide) rfl⟩

/-- C8: the product handler's outcome and the resulting product collection do not depend
on the business collection, which it also leaves unchanged (no existence check); a
parseable business_id is stored in canonical rendering; an unparseable one is passed
through unmodified without rejecting the request. -/
theorem product_business_id_handling (bl bl2 : List Doc)
    (prods : List (String × ProductIn)) (freshId : String) (p : ProductIn) :
    ((create_product ⟨bl, prods⟩ freshId p).1
      = (create_product ⟨bl2, prods⟩ freshId p).1) ∧
    ((create_product ⟨bl, prods⟩ freshId p).2.products
      = (create_product ⟨bl2, prods⟩ freshId p).2.products) ∧
    ((create_product ⟨bl, prods⟩ freshId p).2.businesses = bl) ∧
    (∀ s c, p.business_id = some s → objectIdParse s = some c → productValid p = true →
      create_product ⟨bl, prods⟩ freshId p
        = (HResult.ok freshId,
            ⟨bl, prods ++ [(freshId, { p with business_id := some c })]⟩)) ∧
    (∀ s, p.business_id = some s → objectIdParse s = none → productValid p = true →
      create_product ⟨bl, prods⟩ freshId p
        = (HResult.ok freshId, ⟨bl, prods ++ [(freshId, p)]⟩)) := by
  have hframe : ∀ bl' : List Doc,
      (create_product ⟨bl', prods⟩ freshId p).1 = (create_product ⟨[], prods⟩ freshId p).1
      ∧ (create_product ⟨bl', prods⟩ freshId p).2.products
        = (create_product ⟨[], prods⟩ freshId p).2.products
      ∧ (create_product ⟨bl', prods⟩ freshId p).2.businesses = bl' := by
    intro bl'
    by_cases hv : productValid (normalizeBusinessId p) = true
    · rw [create_product, create_product, if_pos hv, if_pos hv]
      exact ⟨rfl, rfl, rfl⟩
    · rw [create_product, create_product, if_neg hv, if_neg hv]
      exact ⟨rfl, rfl, rfl⟩
  refine ⟨((hframe bl).1).trans ((hframe bl2).1).symm,
    ((hframe bl).2.1).trans ((hframe bl2).2.1).symm, (hframe bl).2.2, ?_, ?_⟩
  · intro s c hs hpar hval
    have hsne : s ≠ "" := by
      intro he
      rw [he, show objectIdParse "" = none from by decide] at hpar
      cases hpar
    have hnorm : normalizeBusinessId p = { p with business_id := some c } := by
      simp only [normalizeBusinessId, hs]
      rw [if_pos hsne, hpar]
    have hval' : productValid (normalizeBusinessId p) = true := by
      rw [hnorm]
      exact hval
    rw [create_product, if_pos hval', hnorm]
  · intro s hs hpar hval
    have hnorm : normalizeBusinessId p = p := by
      simp only [normalizeBusinessId, hs]
      by_cases hse : s = ""
      · rw [if_neg (by simp [hse])]
      · rw [if_pos hse, hpar]
    have hval' : productValid (normalizeBusinessId p) = true := by
      rw [hnorm]
      exact hval
    rw [create_product, if_pos hval', hnorm]

/-- C8 witness: a parseable (uppercase) business_id is stored lowercased, an unparseable
one is stored verbatim with the request accepted, with a non-empty business collection
left unchanged in both cases. -/
theorem product_business_id_handling_witness :
    (create_product ⟨[[("name", Val.vs "B")]], []⟩ "p1" hexIdProduct
      = (HResult.ok "p1",
          ⟨[[("name", Val.vs "B")]],
            [("p1", { hexIdProduct with
                business_id := some "0123456789abcdef01234567" })]⟩)) ∧
    (create_product ⟨[[("name", Val.vs "B")]], []⟩ "p2" freeIdProduct
      = (HResult.ok "p2", ⟨[[("name", Val.vs "B")]], [("p2", freeIdProduct)]⟩)) :=
  ⟨(product_business_id_handling [[("name", Val.vs "B")]] [] [] "p1" hexIdProduct).2.2.2.1
      "0123456789ABCDEF01234567" "0123456789abcdef01234567" rfl (by decide) (by decide),
    (product_business_id_handling [[("name", Val.vs "B")]] [] [] "p2" freeIdProduct).2.2.2.2
      "shop-1" rfl (by decide) (by decide)⟩

/-- C5 counterexample: with limit = 0 the stories feed returns every matching record —
the store treats a zero limit as "no limit" — so the feed returns 1 > 0 records. -/
theorem stories_limit_zero_cex :
    (stories [demoUpdate] (some "Koforidua") 0).length = 1 ∧
    ¬ (stories [demoUpdate] (some "Koforidua") 0).length ≤ 0 := by
  refine ⟨by decide, by decide⟩

/-- C5 (amended): for a positive limit, the stories feed returns at most limit records,
sorted by creation time descending; when the towns parameter parses to a non-empty
list every returned record's town is a member of it, and when it parses to the empty
list no town filter is applied; blank entries never survive parsing. -/
theorem stories_feed_spec (updates : List UpdateDoc) (towns : Option String)
    (limit : Nat) (hlim : 1 ≤ limit) :
    (stories updates towns limit).length ≤ limit ∧
    List.Sorted newerFirst (stories updates towns limit) ∧
    (∀ s, towns = some s → parseTowns s ≠ [] →
      ∀ d ∈ stories updates towns limit, ∃ t ∈ parseTowns s, d.town = some t) ∧
    (∀ s, towns = some s → parseTowns s = [] →
      stories updates towns limit = stories updates none limit) ∧
    (∀ s : String, "" ∉ parseTowns s) := by
  have hlim0 : limit ≠ 0 := by omega
  have hml : ∀ l : List UpdateDoc, mongoLimit limit l = l.take limit :=
    fun l => if_neg hlim0
  refine ⟨?_, ?_, ?_, ?_, ?_⟩
  · rw [stories, hml]
    exact le_trans (le_of_eq (List.length_take _ _)) (min_le_left _ _)
  · rw [stories, hml]
    exact List.Pairwise.sublist (List.take_sublist _ _)
      (List.sorted_insertionSort newerFirst _)
  · intro s hs hne d hd
    subst hs
    have hsne : s ≠ "" := by
      intro he
      rw [he] at hne
      exact hne (by decide)
    have hd' : d ∈ storiesFilter updates (some s) := by
      rw [stories, hml] at hd
      exact (List.perm_insertionSort newerFirst _).subset
        ((List.take_sublist _ _).subset hd)
    rw [storiesFilter, if_pos hsne, if_pos hne, List.mem_filter] at hd'
    have htm := hd'.2
    rw [townMatches] at htm
    cases hdt : d.town with
    | none =>
      rw [hdt] at htm
      exact absurd htm (by simp)
    | some t =>
      rw [hdt] at htm
      exact ⟨t, by simpa using htm, rfl⟩
  · intro s hs hempty
    subst hs
    have hfe : storiesFilter updates (some s) = updates := by
      by_cases hse : s = ""
      · rw [storiesFilter, if_neg (by simp [hse])]
      · rw [storiesFilter, if_pos hse, if_neg (by simp [hempty])]
    rw [stories, stories, hfe]
    rfl
  · intro s he
    rw [parseTowns, List.mem_filter] at he
    exact absurd he.2 (by simp)

/-- C5 witness: the amended theorem at a two-record store, towns "Koforidua,Mampong" and
limit 2. -/
theorem stories_feed_spec_witness :
    1 ≤ 2 ∧
    ((stories [demoUpdate2, demoUpdate] (some "Koforidua,Mampong") 2).length ≤ 2 ∧
     List.Sorted newerFirst (stories [demoUpdate2, demoUpdate] (some "Koforidua,Mampong") 2) ∧
     (∀ s, some "Koforidua,Mampong" = some s → parseTowns s ≠ [] →
       ∀ d ∈ stories [demoUpdate2, demoUpdate] (some "Koforidua,Mampong") 2,
         ∃ t ∈ parseTowns s, d.town = some t) ∧
     (∀ s, some "Koforidua,Mampong" = some s → parseTowns s = [] →
       stories [demoUpdate2, demoUpdate] (some "Koforidua,Mampong") 2
         = stories [demoUpdate2, demoUpdate] none 2) ∧
     (∀ s : String, "" ∉ parseTowns s)) :=
  ⟨by decide,
    stories_feed_spec [demoUpdate2, demoUpdate] (some "Koforidua,Mampong") 2 (by decide)⟩

end EastLink
